import Mathlib

/-!
Verification of the Plant Sight prediction pipeline (src/app.py).

The Python source is shallowly embedded below.  Python `float` scores are
modelled as exact rationals, Python class ids as `Int`, Python dicts with
integer keys as association lists looked up with `List.lookup`, and Python
code that may raise an exception as `Except Unit` values; a `try/except:
pass` block becomes `Except.tryCatch` with a handler that falls through.
Parts of the repository that the specification describes but that are not
present in `src/app.py` (the acceptance gate with its confidence threshold,
crop-likeness keyword filter, rejection reasons and rejected-image
archival) are modelled from the specification and are marked as such in
their doc comments.
-/

namespace PlantSight

/-- `TOP_K = 3` (src/app.py line 34). -/
def TOP_K : Nat := 3

/-- `CLASS_MAPPING` (src/app.py lines 281-291): the built-in table from
integer class id to display name, embedded verbatim as an association
list. -/
def CLASS_MAPPING : List (Int × String) := [
  (0, "American Bollworm on Cotton"), (1, "Anthracnose on Cotton"),
  (2, "Army worm"), (3, "Bacterial Blight in cotton"),
  (4, "Becterial Blight in Rice"), (5, "Brownspot"), (6, "Common_Rust"),
  (7, "Cotton Aphid"), (8, "Flag Smut"), (9, "Gray_Leaf_Spot"),
  (10, "Healthy Maize"), (11, "Healthy Wheat"), (12, "Healthy cotton"),
  (13, "Leaf Curl"), (14, "Leaf smut"), (15, "Mosaic sugarcane"),
  (16, "RedRot sugarcane"), (17, "RedRust sugarcane"), (18, "Rice Blast"),
  (19, "Sugarcane Healthy"), (20, "Tungro"), (21, "Wheat Brown leaf Rust"),
  (22, "Wheat Brown leaf rust"), (23, "Wheat Stem fly"), (24, "Wheat aphid"),
  (25, "Wheat black rust"), (26, "Wheat leaf blight"), (27, "Wheat mite"),
  (28, "Wheat powdery mildew"), (29, "Wheat scab"), (30, "Wheat___Yellow_Rust"),
  (31, "Wilt"), (32, "Yellow Rust Sugarcane"), (33, "bacterial_blight in Cotton"),
  (34, "bollrot on Cotton"), (35, "bollworm on Cotton"), (36, "cotton mealy bug"),
  (37, "cotton whitefly"), (38, "maize ear rot"), (39, "maize fall armyworm"),
  (40, "maize stem borer"), (41, "pink bollworm in cotton"),
  (42, "red cotton bug"), (43, "thirps on  cotton")]

/-- `REMEDIES` (src/app.py lines 292-337): the built-in table from integer
class id to remedy text, embedded verbatim as an association list. -/
def REMEDIES : List (Int × String) := [
  (0, "Monitor bolls, remove damaged bolls, use pheromone traps/targeted insecticide and Bt varieties; rotate crops."),
  (1, "Remove infected debris, increase air circulation, apply appropriate fungicide and use resistant varieties."),
  (2, "Handpick or use biocontrols/targeted insecticides; maintain healthy crop borders and timely scouting."),
  (3, "Remove infected plant parts, avoid overhead irrigation, improve drainage; use approved bactericides."),
  (4, "Use clean seed, balanced fertilizer, flood/dry management and registered bactericides; follow local extension advice."),
  (5, "Use resistant varieties, balanced nutrients and foliar fungicides if needed; avoid prolonged leaf wetness."),
  (6, "Remove alternate hosts, use rust-resistant varieties and fungicide sprays timed to infection risk."),
  (7, "Use neem/soap sprays or biological controls; conserve predators (ladybugs); avoid excess nitrogen."),
  (8, "Use certified seed, seed treatment and crop rotation; follow local fungicide recommendations."),
  (9, "Remove infected leaves, improve airflow, apply fungicide when needed and avoid overhead watering."),
  (10, "No disease detected — maintain good agronomic practices and regular scouting."),
  (11, "Healthy — keep crop rotation, timely fungicide if risk appears, and good nutrition."),
  (12, "Healthy — continue best-practices: balanced irrigation, nutrition and monitoring."),
  (13, "Prune affected parts, use resistant varieties, remove heavily infested plants and use vector control."),
  (14, "Use resistant varieties, seed treatment and fungicide where recommended; improve field hygiene."),
  (15, "Remove infected stools, use resistant varieties, maintain balanced nutrition and follow extension guidance."),
  (16, "Sanitation, remove infected canes, use resistant varieties and follow recommended fungicide schedule."),
  (17, "Use resistant varieties, cultural sanitation, and fungicides as per local advice."),
  (18, "Use resistant varieties, proper spacing, timely fungicide and water management; remove infected plants."),
  (19, "Healthy — maintain good field hygiene, nutrition and pest monitoring."),
  (20, "Viral disease — remove infected plants, control vectors (insects), use resistant varieties and healthy seed."),
  (21, "Remove infected debris, apply rust control measures and use resistant varieties."),
  (22, "See entry 21 — sanitation, resistant varieties and fungicide where applicable."),
  (23, "Stem fly — early sowing, remove residues, use tolerant varieties and insecticide seed treatment if recommended."),
  (24, "Wheat aphid — monitor, release/encourage natural enemies, use targeted insecticides only if threshold exceeded."),
  (25, "Black rust — plant resistant varieties, monitor and apply fungicide at key growth stages."),
  (26, "Leaf blight — crop rotation, avoid dense stands, treat with fungicide when needed."),
  (27, "Mites — use miticides or oils, conserve predators and avoid excessive use of broad-spectrum insecticides."),
  (28, "Powdery mildew — improve airflow, timely fungicides and grow resistant varieties."),
  (29, "Scab (Fusarium) — crop rotation, resistant varieties, and fungicide seed treatment where advised."),
  (30, "Yellow rust — plant resistant varieties, monitor and apply fungicide at early signs."),
  (31, "Wilt — diagnose (fungal/bacterial/physiological), use resistant varieties and improve drainage; remove infected plants."),
  (32, "Yellow Rust Sugarcane — use resistant varieties, fungicide sprays and sanitation."),
  (33, "Bacterial blight (cotton) — remove infected material, control vectors, and use clean seed/approved treatments."),
  (34, "Boll rot — improve air flow, avoid late-season wetness, timely insect control to prevent fruit damage."),
  (35, "Bollworm — monitor, use pheromone traps/Bt or targeted insecticides and timely scouting."),
  (36, "Mealy bug — release natural enemies, use insecticidal soaps/oils and remove heavily infested plants."),
  (37, "Whitefly — use yellow sticky traps, natural enemies, and insecticidal soaps or targeted sprays if needed."),
  (38, "Maize ear rot — manage moisture at harvest, use resistant hybrids and proper storage."),
  (39, "Fall armyworm — early detection, biopesticides (Bt), targeted insecticides and field sanitation."),
  (40, "Stem borer — use pheromone traps, resistant varieties and stem borer management practices."),
  (41, "Pink bollworm — pheromone traps, cultural controls and timely insecticide targeting larvae."),
  (42, "Red cotton bug — hand-pick high populations, use insecticide when threshold crossed and field sanitation."),
  (43, "Thrips — monitor, use reflective mulch, conserve predators and apply insecticidal soap/targeted insecticide if needed.")]

/-- `CLASS_MAPPING.get(idx, f"Class {idx}")` (src/app.py line 404): resolve
a class id to a display name, synthesizing a placeholder when the id is
not a key of the catalog. -/
def resolveName (idx : Int) : String :=
  match CLASS_MAPPING.lookup idx with
  | some n => n
  | none => "Class " ++ toString idx

/-- Relation comparing score-carrying pairs by their second component,
descending (used to model the descending sorts in src/app.py). -/
def sndGe {α : Type} (a b : α × ℚ) : Prop := b.2 ≤ a.2

instance {α : Type} : DecidableRel (@sndGe α) :=
  fun a b => inferInstanceAs (Decidable (b.2 ≤ a.2))

instance {α : Type} : IsTotal (α × ℚ) sndGe := ⟨fun a b => le_total b.2 a.2⟩

instance {α : Type} : IsTrans (α × ℚ) sndGe := ⟨fun _ _ _ hab hbc => le_trans hbc hab⟩

/-- Descending sort by score, modelling `sorted(..., key=lambda x:-x[1])`
(src/app.py line 269) and the value ordering of `np.argsort(-arr)`. -/
def sortBySndDesc {α : Type} (l : List (α × ℚ)) : List (α × ℚ) :=
  List.insertionSort sndGe l

/-- `ids = np.argsort(-arr)[:k]` followed by
`[(int(i), float(arr[i])) for i in ids]` (src/app.py lines 242-243 and
254-255): pair every index with its score, sort descending by score and
keep the first `k` pairs. -/
def topkOfArr (arr : List ℚ) (k : Nat) : List (Int × ℚ) :=
  (sortBySndDesc (((List.range arr.length).map Int.ofNat).zip arr)).take k

/-- Model of the object bound to `probs_obj` in src/app.py: the
`np.array(probs_obj).flatten()` conversion (which may raise), the optional
`top1`/`top1conf` attribute pair (absent when `hasattr` fails, and reading
or converting it may raise), and the optional `cpu()` method whose call
and array conversion may raise. -/
structure ProbsObj where
  arrayConv : Except Unit (List ℚ)
  top1 : Option (Except Unit (Int × ℚ))
  cpu : Option (Except Unit (List ℚ))

/-- Model of one detection box `b`: evaluating `int(b.cls), float(b.conf)`
may raise, in which case the box is skipped (src/app.py lines 263-267). -/
structure BoxObj where
  clsConf : Except Unit (Int × ℚ)

/-- Model of the classifier result object probed by
`extract_topk_from_result` (src/app.py lines 235-273) and by the display
fallback (lines 406-411): an optional `probs` attribute, an optional
`boxes` attribute whose length test and iteration may raise, and an
optional `names` dictionary. -/
structure ResultObj where
  probs : Option ProbsObj
  boxes : Option (Except Unit (List BoxObj))
  names : Option (List (Int × String))

/-- First probing branch (src/app.py lines 239-245): convert `probs_obj`
to a flat array and, when it is non-empty, return the top-k pairs; the
surrounding `try/except: pass` becomes `Except.tryCatch` with a handler
that falls through to the next branch. -/
def probsArrBranch (p : ProbsObj) (k : Nat) : Except Unit (Option (List (Int × ℚ))) :=
  Except.tryCatch
    (match p.arrayConv with
     | Except.error e => Except.error e
     | Except.ok arr =>
        if arr.length ≠ 0 then Except.ok (some (topkOfArr arr k))
        else Except.ok none)
    (fun _ => Except.ok none)

/-- Second probing branch (src/app.py lines 246-250): when `probs_obj` has
both `top1` and `top1conf`, return that single pair; failures fall
through. -/
def probsTop1Branch (p : ProbsObj) : Except Unit (Option (List (Int × ℚ))) :=
  Except.tryCatch
    (match p.top1 with
     | some (Except.error e) => Except.error e
     | some (Except.ok tv) => Except.ok (some [tv])
     | none => Except.ok none)
    (fun _ => Except.ok none)

/-- Third probing branch (src/app.py lines 251-257): when `probs_obj` has
a `cpu` method, convert its result to a flat array and return the top-k
pairs unconditionally (no emptiness guard in the source); failures fall
through. -/
def probsCpuBranch (p : ProbsObj) (k : Nat) : Except Unit (Option (List (Int × ℚ))) :=
  Except.tryCatch
    (match p.cpu with
     | some (Except.error e) => Except.error e
     | some (Except.ok arr) => Except.ok (some (topkOfArr arr k))
     | none => Except.ok none)
    (fun _ => Except.ok none)

/-- Boxes fallback branch (src/app.py lines 258-272): collect the
`(int(b.cls), float(b.conf))` pairs of the boxes whose accessors do not
raise, sort them by descending confidence and keep the first `k`; the
whole branch is wrapped in `try/except: pass`. -/
def boxesBranch (r : ResultObj) (k : Nat) : Except Unit (Option (List (Int × ℚ))) :=
  Except.tryCatch
    (match r.boxes with
     | none => Except.ok none
     | some (Except.error e) => Except.error e
     | some (Except.ok bs) =>
        if bs.length > 0 then
          match bs.filterMap (fun b => b.clsConf.toOption) with
          | [] => Except.ok none
          | q :: qs => Except.ok (some ((sortBySndDesc (q :: qs)).take k))
        else Except.ok none)
    (fun _ => Except.ok none)

/-- `extract_topk_from_result(result, k)` (src/app.py lines 235-273): try
the three `probs` branches in order, then the boxes fallback, and return
`[]` when nothing is extractable.  Exception propagation between branches
is written out explicitly: an uncaught error in a branch would surface as
`Except.error`. -/
def extract_topk_from_result (result : ResultObj) (k : Nat) : Except Unit (List (Int × ℚ)) :=
  let viaProbs : Except Unit (Option (List (Int × ℚ))) :=
    match result.probs with
    | none => Except.ok none
    | some p =>
      match probsArrBranch p k with
      | Except.error e => Except.error e
      | Except.ok (some l) => Except.ok (some l)
      | Except.ok none =>
        match probsTop1Branch p with
        | Except.error e => Except.error e
        | Except.ok (some l) => Except.ok (some l)
        | Except.ok none => probsCpuBranch p k
  match viaProbs with
  | Except.error e => Except.error e
  | Except.ok (some l) => Except.ok l
  | Except.ok none =>
    match boxesBranch result k with
    | Except.error e => Except.error e
    | Except.ok (some l) => Except.ok l
    | Except.ok none => Except.ok []

/-- `display_preds` construction (src/app.py lines 402-404): resolve every
predicted class id to a display name, keeping the raw confidence. -/
def display_preds_of (preds : List (Int × ℚ)) : List (String × ℚ) :=
  preds.map (fun ic => (resolveName ic.1, ic.2))

/-- `r.names.get(best_idx, f"Class {best_idx}")` (src/app.py line 409). -/
def namesGet (names : List (Int × String)) (idx : Int) : String :=
  match names.lookup idx with
  | some n => n
  | none => "Class " ++ toString idx

/-- Last-ditch display fallback (src/app.py lines 406-411): when the
extracted list is empty and the result has a `names` dictionary, try to
read `r.probs.top1` and `r.probs.top1conf` directly; any raise is caught
and leaves the display list empty. -/
def fallback_display (r : ResultObj) : List (String × ℚ) :=
  match r.names with
  | none => []
  | some nm =>
    match r.probs with
    | none => []
    | some p =>
      match p.top1 with
      | some (Except.ok iv) => [(namesGet nm iv.1, iv.2)]
      | _ => []

/-- The display list actually rendered (src/app.py lines 402-411):
`display_preds` from the extracted predictions, or the fallback when it is
empty. -/
def display_stage (preds : List (Int × ℚ)) (r : ResultObj) : List (String × ℚ) :=
  let dp := display_preds_of preds
  if dp.isEmpty then fallback_display r else dp

/-- The (name, confidence) pair shown to the user (src/app.py lines
422-429): the head of the display list, or `("Unknown", 0.0)` when it is
empty. -/
def shown_top (dp : List (String × ℚ)) : String × ℚ :=
  match dp with
  | t :: _ => t
  | [] => ("Unknown", 0)

/-- `remedy_text = REMEDIES.get(preds[0][0]) if preds else "No remedy
available."` (src/app.py line 432).  The value is an optional string:
`REMEDIES.get` has no default, so a missing key yields `none`. -/
def remedy_text (preds : List (Int × ℚ)) : Option String :=
  match preds with
  | [] => some "No remedy available."
  | ic :: _ => REMEDIES.lookup ic.1

/-- Modelled from the spec: the configured confidence threshold (spec item
4.4 step 4, default 0.70); no acceptance threshold appears in src/app.py. -/
def THRESHOLD : ℚ := 7/10

/-- Modelled from the spec: `normalize(raw)` (spec item 4.1); no score
normalizer appears in src/app.py.  A non-numeric input is modelled as
`none`; a value exceeding 1 is divided by 100 and the result is clamped to
the interval from 0 to 1. -/
def normalize (raw : Option ℚ) : ℚ :=
  match raw with
  | none => 0
  | some s =>
    let scaled := if 1 < s then s / 100 else s
    max 0 (min 1 scaled)

/-- Modelled from the spec: the fixed crop keyword set (spec items 4.3 and
6); no keyword filter appears in src/app.py. -/
def CROP_KEYWORDS : List String := ["cotton", "maize", "wheat", "rice", "sugarcane"]

/-- Boolean prefix test on character lists (helper for the substring
match of the crop-likeness filter). -/
def startsWithCL : List Char → List Char → Bool
  | _, [] => true
  | [], _ :: _ => false
  | c :: cs, d :: ds => c == d && startsWithCL cs ds

/-- Boolean substring test on character lists: `containsSub hay pat` holds
when `pat` occurs contiguously inside `hay`. -/
def containsSub : List Char → List Char → Bool
  | [], pat => startsWithCL [] pat
  | c :: t, pat => startsWithCL (c :: t) pat || containsSub t pat

/-- Modelled from the spec: `looks_like_crop(name, keywords)` (spec item
4.3), a case-insensitive substring match of the resolved name against the
fixed keyword set; absent from src/app.py. -/
def looks_like_crop (name : String) : Bool :=
  CROP_KEYWORDS.any (fun kw => containsSub (name.data.map Char.toLower) kw.data)

/-- Modelled from the spec: the rejection-reason enumeration (spec item 3,
extended with the dedicated reasons of spec items 4.4 steps 1 and 6);
absent from src/app.py. -/
inductive RejReason where
  | LOW_CONFIDENCE
  | NOT_CROP_LIKE
  | NO_VALID_PREDICTION
  | NO_PREDICTION
  | NONE
deriving DecidableEq

/-- Modelled from the spec: the `Verdict` record (spec item 3); absent
from src/app.py. -/
structure Verdict where
  accepted : Bool
  topName : String
  topConf : ℚ
  topId : Int
  remedy : Option String
  reason : RejReason
deriving DecidableEq

/-- Modelled from the spec: the remedy attached on acceptance (spec item
4.4 step 7), falling back to a generic guidance string when the catalog
has no remedy text for the id; absent from src/app.py. -/
def remedyFor (idx : Int) : String :=
  match REMEDIES.lookup idx with
  | some t => t
  | none => "Follow general good agronomic practice and consult your local extension service."

/-- Modelled from the spec: `decide(ranked, catalog, threshold, keywords)`
(spec item 4.4), the acceptance gate; absent from src/app.py.  An empty
ranked list is an automatic rejection; otherwise the top entry is
normalized and resolved, acceptance requires a valid class id, a
normalized confidence at or above the threshold and a crop-like name, and
a rejection carries the first failing reason in the fixed priority order:
low confidence, then not crop-like, then the generic reason. -/
def decideVerdict (ranked : List (Int × ℚ)) : Verdict :=
  match ranked with
  | [] =>
    { accepted := false, topName := "", topConf := 0, topId := 0,
      remedy := none, reason := RejReason.NO_PREDICTION }
  | top :: _ =>
    let conf := normalize (some top.2)
    let name := resolveName top.1
    if (CLASS_MAPPING.lookup top.1).isSome ∧ THRESHOLD ≤ conf ∧ looks_like_crop name = true then
      { accepted := true, topName := name, topConf := conf, topId := top.1,
        remedy := some (remedyFor top.1), reason := RejReason.NONE }
    else if ¬ THRESHOLD ≤ conf then
      { accepted := false, topName := name, topConf := conf, topId := top.1,
        remedy := none, reason := RejReason.LOW_CONFIDENCE }
    else if ¬ looks_like_crop name = true then
      { accepted := false, topName := name, topConf := conf, topId := top.1,
        remedy := none, reason := RejReason.NOT_CROP_LIKE }
    else
      { accepted := false, topName := name, topConf := conf, topId := top.1,
        remedy := none, reason := RejReason.NO_VALID_PREDICTION }

/-- Modelled from the spec: the archival path for a rejected upload (spec
item 6), `rejected/` followed by the reason, an underscore, the UTC
timestamp and the `.png` suffix; absent from src/app.py. -/
def rejectedArchivePath (reason timestamp : String) : String :=
  "rejected/" ++ reason ++ "_" ++ timestamp ++ ".png"

/-- Modelled from the spec: the best-effort archival of a rejected upload
(spec items 6 and 7); absent from src/app.py.  The write is attempted
through the supplied effect and any failure is caught and ignored, leaving
the already-computed verdict untouched. -/
def archiveRejected (write : String → Except Unit Unit) (v : Verdict)
    (reason timestamp : String) : Except Unit Verdict :=
  Except.tryCatch
    (match write (rejectedArchivePath reason timestamp) with
     | Except.ok _ => Except.ok v
     | Except.error e => Except.error e)
    (fun _ => Except.ok v)

end PlantSight

/-- Claim C3: name resolution returns the catalog name when the class id is
a key of `CLASS_MAPPING`, and the exact string `"Class " ++ toString idx`
when it is not; it is total, so it never fails for any integer id. -/
theorem PlantSight.c3_resolve_name (idx : Int) :
    (∀ n, PlantSight.CLASS_MAPPING.lookup idx = some n →
      PlantSight.resolveName idx = n) ∧
    (PlantSight.CLASS_MAPPING.lookup idx = none →
      PlantSight.resolveName idx = "Class " ++ toString idx) := by
  constructor
  · intro n hn
    simp [PlantSight.resolveName, hn]
  · intro hn
    simp [PlantSight.resolveName, hn]

/-- Witness for C3: class id 2 is in the catalog and resolves to
"Army worm"; class id 44 is absent and resolves to "Class 44". -/
theorem PlantSight.c3_resolve_name_witness :
    PlantSight.resolveName 2 = "Army worm" ∧
    PlantSight.resolveName 44 = "Class " ++ toString (44 : Int) :=
  ⟨(PlantSight.c3_resolve_name 2).1 "Army worm" (by decide),
   (PlantSight.c3_resolve_name 44).2 (by decide)⟩

namespace PlantSight

/-! ### Helper lemmas -/

/-- Each probing branch always succeeds: `probsArrBranch` computes to an
`Except.ok` value determined by the array conversion. -/
theorem probsArrBranch_eq (p : ProbsObj) (k : Nat) :
    probsArrBranch p k = Except.ok
      (match p.arrayConv with
       | Except.ok arr => if arr.length ≠ 0 then some (topkOfArr arr k) else none
       | Except.error _ => none) := by
  cases h : p.arrayConv with
  | error e => simp [probsArrBranch, h, Except.tryCatch]
  | ok arr =>
    by_cases ha : arr = [] <;>
      simp [probsArrBranch, h, Except.tryCatch, ha]

/-- `probsTop1Branch` computes to an `Except.ok` value determined by the
`top1` field. -/
theorem probsTop1Branch_eq (p : ProbsObj) :
    probsTop1Branch p = Except.ok
      (match p.top1 with
       | some (Except.ok tv) => some [tv]
       | _ => none) := by
  rcases h : p.top1 with _ | ⟨e | tv⟩ <;> simp [probsTop1Branch, h, Except.tryCatch]

/-- `probsCpuBranch` computes to an `Except.ok` value determined by the
`cpu` field. -/
theorem probsCpuBranch_eq (p : ProbsObj) (k : Nat) :
    probsCpuBranch p k = Except.ok
      (match p.cpu with
       | some (Except.ok arr) => some (topkOfArr arr k)
       | _ => none) := by
  rcases h : p.cpu with _ | ⟨e | arr⟩ <;> simp [probsCpuBranch, h, Except.tryCatch]

/-- `boxesBranch` computes to an `Except.ok` value determined by the
`boxes` field. -/
theorem boxesBranch_eq (r : ResultObj) (k : Nat) :
    boxesBranch r k = Except.ok
      (match r.boxes with
       | some (Except.ok bs) =>
          if bs.length > 0 then
            match bs.filterMap (fun b => b.clsConf.toOption) with
            | [] => none
            | q :: qs => some ((sortBySndDesc (q :: qs)).take k)
          else none
       | _ => none) := by
  rcases h : r.boxes with _ | ⟨e | bs⟩
  · simp [boxesBranch, h, Except.tryCatch]
  · simp [boxesBranch, h, Except.tryCatch]
  · by_cases hb : 0 < bs.length
    · cases hfm : bs.filterMap (fun b => b.clsConf.toOption) <;>
        simp [boxesBranch, h, Except.tryCatch, hb, hfm]
    · simp [boxesBranch, h, Except.tryCatch, hb]

/-- The extracted top-k list from a flat array has length
`min k arr.length`. -/
theorem topkOfArr_length (arr : List ℚ) (k : Nat) :
    (topkOfArr arr k).length = min k arr.length := by
  simp [topkOfArr, sortBySndDesc, List.length_take, List.length_insertionSort]

/-- The extracted top-k list from a flat array is sorted by descending
score. -/
theorem topkOfArr_sorted (arr : List ℚ) (k : Nat) :
    List.Sorted sndGe (topkOfArr arr k) :=
  (List.sorted_insertionSort sndGe _).sublist (List.take_sublist _ _)

/-- A truncated descending sort is sorted and no longer than the bound. -/
theorem take_sortBySndDesc_good (pl : List (Int × ℚ)) (k : Nat) :
    List.Sorted sndGe ((sortBySndDesc pl).take k) ∧
    ((sortBySndDesc pl).take k).length ≤ k :=
  ⟨(List.sorted_insertionSort sndGe pl).sublist (List.take_sublist _ _),
   List.length_take_le _ _⟩

/-! ### Claim theorems -/

/-- Claim C9: for every classifier result object, regardless of which
attribute shapes it exposes (probs array, top1/top1conf attributes, cpu
tensor, boxes, or none of these), `extract_topk_from_result` never raises:
it always evaluates to `Except.ok`, and when the result object exposes
neither `probs` nor `boxes` it returns the empty list. -/
theorem c9_extract_never_raises (r : ResultObj) (k : Nat) :
    (∃ l, extract_topk_from_result r k = Except.ok l) ∧
    (r.probs = none → r.boxes = none → extract_topk_from_result r k = Except.ok []) := by
  constructor
  · cases hp : r.probs with
    | none =>
      obtain ⟨oB, hB⟩ : ∃ o, boxesBranch r k = Except.ok o := ⟨_, boxesBranch_eq r k⟩
      simp only [extract_topk_from_result, hp, hB]
      cases oB <;> simp
    | some p =>
      obtain ⟨oA, hA⟩ : ∃ o, probsArrBranch p k = Except.ok o := ⟨_, probsArrBranch_eq p k⟩
      obtain ⟨oT, hT⟩ : ∃ o, probsTop1Branch p = Except.ok o := ⟨_, probsTop1Branch_eq p⟩
      obtain ⟨oC, hC⟩ : ∃ o, probsCpuBranch p k = Except.ok o := ⟨_, probsCpuBranch_eq p k⟩
      obtain ⟨oB, hB⟩ : ∃ o, boxesBranch r k = Except.ok o := ⟨_, boxesBranch_eq r k⟩
      simp only [extract_topk_from_result, hp, hA, hT, hC, hB]
      cases oA <;> cases oT <;> cases oC <;> cases oB <;> simp
  · intro h1 h2
    simp [extract_topk_from_result, h1, boxesBranch, h2, Except.tryCatch]

/-- Witness for C9: a result object exposing no attribute at all yields
`Except.ok []` (no exception, empty extraction). -/
theorem c9_extract_never_raises_witness :
    extract_topk_from_result ⟨none, none, none⟩ 5 = Except.ok [] :=
  (c9_extract_never_raises ⟨none, none, none⟩ 5).2 rfl rfl

/-- Claim C5: every list produced by `extract_topk_from_result` at the
configured `TOP_K` is ordered best-first (scores non-increasing, i.e.
sorted for `sndGe`) and has length at most `TOP_K = 3`. -/
theorem c5_extract_sorted_bounded (r : ResultObj) (l : List (Int × ℚ))
    (h : extract_topk_from_result r TOP_K = Except.ok l) :
    List.Sorted sndGe l ∧ l.length ≤ TOP_K := by
  rcases r with ⟨probs, boxes, names⟩
  cases probs with
  | none =>
    simp only [extract_topk_from_result, boxesBranch_eq] at h
    rcases boxes with _ | ⟨e | bs⟩
    · simp at h; subst h; simp [List.Sorted, TOP_K]
    · simp at h; subst h; simp [List.Sorted, TOP_K]
    · by_cases hb : 0 < bs.length
      · cases hfm : bs.filterMap (fun b => b.clsConf.toOption) with
        | nil => simp [hb, hfm] at h; subst h; simp [List.Sorted, TOP_K]
        | cons q qs =>
          simp [hb, hfm] at h; subst h
          exact take_sortBySndDesc_good (q :: qs) TOP_K
      · simp [hb] at h; subst h; simp [List.Sorted, TOP_K]
  | some p =>
    obtain ⟨arrC, top1, cpu⟩ := p
    simp only [extract_topk_from_result, probsArrBranch_eq, probsTop1Branch_eq,
      probsCpuBranch_eq, boxesBranch_eq] at h
    rcases arrC with e | arr
    · -- array conversion raised: top1, then cpu, then boxes
      rcases top1 with _ | ⟨e2 | tv⟩
      all_goals rcases cpu with _ | ⟨e3 | carr⟩
      all_goals try
        (simp at h; subst h; first
          | exact ⟨List.sorted_singleton _, by simp [TOP_K]⟩
          | exact ⟨topkOfArr_sorted _ _, topkOfArr_length carr TOP_K ▸ Nat.min_le_left _ _⟩)
      all_goals
        rcases boxes with _ | ⟨e4 | bs⟩
      all_goals try (simp at h; subst h; simp [List.Sorted, TOP_K])
      all_goals by_cases hb : 0 < bs.length
      all_goals try
        (cases hfm : bs.filterMap (fun b => b.clsConf.toOption) with
          | nil => simp [hb, hfm] at h; subst h; simp [List.Sorted, TOP_K]
          | cons q qs =>
            simp [hb, hfm] at h; subst h
            exact take_sortBySndDesc_good (q :: qs) TOP_K)
      all_goals simp [hb] at h; subst h; simp [List.Sorted, TOP_K]
    · by_cases ha : arr = []
      · -- empty array: same fall-through as a raise
        subst ha
        rcases top1 with _ | ⟨e2 | tv⟩
        all_goals rcases cpu with _ | ⟨e3 | carr⟩
        all_goals try
          (simp at h; subst h; first
            | exact ⟨List.sorted_singleton _, by simp [TOP_K]⟩
            | exact ⟨topkOfArr_sorted _ _, topkOfArr_length carr TOP_K ▸ Nat.min_le_left _ _⟩)
        all_goals
          rcases boxes with _ | ⟨e4 | bs⟩
        all_goals try (simp at h; subst h; simp [List.Sorted, TOP_K])
        all_goals by_cases hb : 0 < bs.length
        all_goals try
          (cases hfm : bs.filterMap (fun b => b.clsConf.toOption) with
            | nil => simp [hb, hfm] at h; subst h; simp [List.Sorted, TOP_K]
            | cons q qs =>
              simp [hb, hfm] at h; subst h
              exact take_sortBySndDesc_good (q :: qs) TOP_K)
        all_goals simp [hb] at h; subst h; simp [List.Sorted, TOP_K]
      · simp [ha] at h; subst h
        exact ⟨topkOfArr_sorted _ _, topkOfArr_length arr TOP_K ▸ Nat.min_le_left _ _⟩

/-- Witness for C5: a probs array with four scores yields the three
highest scores in non-increasing order. -/
theorem c5_extract_sorted_bounded_witness :
    List.Sorted sndGe [((1 : Int), (9 : ℚ)), ((3 : Int), (7 : ℚ)), ((2 : Int), (4 : ℚ))] ∧
    ([((1 : Int), (9 : ℚ)), ((3 : Int), (7 : ℚ)), ((2 : Int), (4 : ℚ))]).length ≤ TOP_K :=
  c5_extract_sorted_bounded
    ⟨some ⟨Except.ok [(1 : ℚ), 9, 4, 7], none, none⟩, none, none⟩
    [((1 : Int), (9 : ℚ)), ((3 : Int), (7 : ℚ)), ((2 : Int), (4 : ℚ))] rfl

/-- When the extraction is empty, the `top1` accessor of the probs object
cannot have been readable: the second probing branch would otherwise have
produced a singleton. -/
theorem extract_nil_no_top1 (r : ResultObj)
    (h : extract_topk_from_result r TOP_K = Except.ok []) :
    ∀ p iv, r.probs = some p → p.top1 ≠ some (Except.ok iv) := by
  intro p iv hp ht
  obtain ⟨arrC, top1, cpu⟩ := p
  simp only at ht
  subst ht
  simp only [extract_topk_from_result, hp, probsArrBranch_eq, probsTop1Branch_eq,
    probsCpuBranch_eq, boxesBranch_eq] at h
  rcases arrC with e | arr
  · simp at h
  · by_cases ha : arr = []
    · subst ha; simp at h
    · simp [ha] at h
      have hlen : (topkOfArr arr TOP_K).length = min TOP_K arr.length :=
        topkOfArr_length arr TOP_K
      rw [h] at hlen
      simp [TOP_K] at hlen
      have hlen0 : arr.length = 0 := by omega
      exact ha (List.length_eq_zero.mp hlen0)

/-- Claim C4: for the empty ranked list, the pipeline produces a rejection
verdict and raises no exception: the rendered top is `("Unknown", 0)`
with an empty display list (src/app.py lines 422-432, using the guarded
fallback of lines 406-411), the remedy is the fixed "No remedy available."
string, and the spec-modelled gate rejects with the dedicated no-prediction
reason. -/
theorem c4_empty_is_rejected (r : ResultObj)
    (h : extract_topk_from_result r TOP_K = Except.ok []) :
    display_stage [] r = [] ∧
    shown_top (display_stage [] r) = ("Unknown", 0) ∧
    remedy_text [] = some "No remedy available." ∧
    (decideVerdict []).accepted = false ∧
    (decideVerdict []).reason = RejReason.NO_PREDICTION := by
  have hfb : fallback_display r = [] := by
    unfold fallback_display
    rcases hn : r.names with _ | nm
    · rfl
    · rcases hp : r.probs with _ | p
      · rfl
      · rcases ht : p.top1 with _ | ⟨e | iv⟩
        · simp [ht]
        · simp [ht]
        · exact absurd ht (extract_nil_no_top1 r h p iv hp)
  have hds : display_stage [] r = [] := by
    simp [display_stage, display_preds_of, hfb]
  refine ⟨hds, ?_, rfl, rfl, rfl⟩
  rw [hds]; rfl

/-- Witness for C4: a result object with no extractable shape gives the
empty extraction, the "Unknown" display, the fixed remedy string and the
rejecting gate verdict. -/
theorem c4_empty_is_rejected_witness :
    display_stage [] ⟨none, none, none⟩ = [] ∧
    shown_top (display_stage [] (⟨none, none, none⟩ : ResultObj)) = ("Unknown", 0) ∧
    remedy_text [] = some "No remedy available." ∧
    (decideVerdict []).accepted = false ∧
    (decideVerdict []).reason = RejReason.NO_PREDICTION :=
  c4_empty_is_rejected ⟨none, none, none⟩ rfl

/-- Claim C7: the decision pipeline is a pure function of its inputs: the
embedded extraction, display, remedy lookup and spec-modelled gate consult
no mutable state (the source reads only its arguments and the constant
module-level tables), so evaluating them twice on identical inputs yields
identical results. -/
theorem c7_deterministic (r₁ r₂ : ResultObj) (preds₁ preds₂ : List (Int × ℚ))
    (hr : r₁ = r₂) (hp : preds₁ = preds₂) :
    extract_topk_from_result r₁ TOP_K = extract_topk_from_result r₂ TOP_K ∧
    display_stage preds₁ r₁ = display_stage preds₂ r₂ ∧
    remedy_text preds₁ = remedy_text preds₂ ∧
    decideVerdict preds₁ = decideVerdict preds₂ := by
  subst hr; subst hp; exact ⟨rfl, rfl, rfl, rfl⟩

/-- Witness for C7: two calls of the gate on the same concrete singleton
ranked list agree. -/
theorem c7_deterministic_witness :
    decideVerdict [((11 : Int), (1 : ℚ))] = decideVerdict [((11 : Int), (1 : ℚ))] :=
  (c7_deterministic ⟨none, none, none⟩ ⟨none, none, none⟩
    [((11 : Int), (1 : ℚ))] [((11 : Int), (1 : ℚ))] rfl rfl).2.2.2

/-- Claim C8: on rejection the original bytes are archived under a path of
the exact form `rejected/` ++ reason ++ `_` ++ timestamp ++ `.png`, and a
failing archival write is caught and ignored: the call always returns the
already-computed verdict unchanged and never surfaces an error. -/
theorem c8_archival_best_effort (write : String → Except Unit Unit) (v : Verdict)
    (reason timestamp : String) :
    archiveRejected write v reason timestamp = Except.ok v ∧
    rejectedArchivePath reason timestamp =
      "rejected/" ++ reason ++ "_" ++ timestamp ++ ".png" := by
  constructor
  · unfold archiveRejected
    cases hw : write (rejectedArchivePath reason timestamp) <;>
      simp [Except.tryCatch, hw]
  · rfl

/-- Claim C2: the normalized confidence always lies between 0 and 1; a
value exceeding 1 is divided by 100 and the result clamped, a negative
input maps to 0, a value still above 1 after scaling maps to 1, and a
non-numeric input (modelled as `none`) maps to 0 without raising. -/
theorem c2_normalize_clamped (raw : Option ℚ) :
    0 ≤ normalize raw ∧ normalize raw ≤ 1 ∧
    (∀ s, raw = some s → 1 < s → normalize raw = max 0 (min 1 (s / 100))) ∧
    (∀ s, raw = some s → s < 0 → normalize raw = 0) ∧
    (∀ s, raw = some s → 100 < s → normalize raw = 1) ∧
    (raw = none → normalize raw = 0) := by
  rcases raw with _ | s
  · exact ⟨le_refl 0, by norm_num [normalize], by simp, by simp, by simp, fun _ => rfl⟩
  · refine ⟨?_, ?_, ?_, ?_, ?_, by simp⟩
    · exact le_max_left 0 _
    · exact max_le (by norm_num) (min_le_left 1 _)
    · intro t ht h1t
      obtain rfl : s = t := by injection ht
      simp [normalize, if_pos h1t]
    · intro t ht hneg
      obtain rfl : s = t := by injection ht
      have h1 : ¬ 1 < s := by linarith
      have h2 : min 1 s = s := min_eq_right (by linarith)
      simp [normalize, if_neg h1, h2, max_eq_left (le_of_lt hneg)]
    · intro t ht hbig
      obtain rfl : s = t := by injection ht
      have h1 : 1 < s := by linarith
      have h2 : (1 : ℚ) < s / 100 := by
        rw [lt_div_iff₀ (by norm_num : (0 : ℚ) < 100)]; linarith
      simp [normalize, if_pos h1, min_eq_left (le_of_lt h2)]

/-- Witness for C2: `normalize` maps 150 to 1, 70 to 7/10, -5 to 0 and a
non-numeric input to 0. -/
theorem c2_normalize_clamped_witness :
    normalize (some 150) = 1 ∧ normalize (some (-5)) = 0 ∧ normalize none = 0 :=
  ⟨(c2_normalize_clamped (some 150)).2.2.2.2.1 150 rfl (by norm_num),
   (c2_normalize_clamped (some (-5))).2.2.2.1 (-5) rfl (by norm_num),
   (c2_normalize_clamped none).2.2.2.2.2 rfl⟩

/-- Claim C1 (modelled from the spec, gate absent from src/app.py): for
every non-empty ranked list the gate accepts exactly when the top id is a
catalog key, its normalized confidence reaches the threshold and its
resolved name is crop-like; a rejection carries the first failing reason
in the fixed priority order: low confidence, then not crop-like, then the
generic no-valid-prediction reason. -/
theorem c1_gate_accept_iff (top : Int × ℚ) (rest : List (Int × ℚ)) :
    ((decideVerdict (top :: rest)).accepted = true ↔
      ((CLASS_MAPPING.lookup top.1).isSome ∧
        THRESHOLD ≤ normalize (some top.2) ∧
        looks_like_crop (resolveName top.1) = true)) ∧
    (¬ THRESHOLD ≤ normalize (some top.2) →
      (decideVerdict (top :: rest)).reason = RejReason.LOW_CONFIDENCE) ∧
    (THRESHOLD ≤ normalize (some top.2) →
      looks_like_crop (resolveName top.1) = false →
      (decideVerdict (top :: rest)).reason = RejReason.NOT_CROP_LIKE) ∧
    (THRESHOLD ≤ normalize (some top.2) →
      looks_like_crop (resolveName top.1) = true →
      ¬ (CLASS_MAPPING.lookup top.1).isSome →
      (decideVerdict (top :: rest)).reason = RejReason.NO_VALID_PREDICTION) := by
  simp only [decideVerdict]
  split_ifs with h1 h2 h3 <;> simp_all

/-- Witness for C1: the spec example `ranked = [(2, 0.95)]`: id 2 ("Army
worm") is a valid catalog key and confident but not crop-like, so the gate
rejects with the not-crop-like reason; it is not accepted. -/
theorem c1_gate_accept_iff_witness :
    (decideVerdict [((2 : Int), (95/100 : ℚ))]).reason = RejReason.NOT_CROP_LIKE :=
  (c1_gate_accept_iff (2, 95/100) []).2.2.1
    (by norm_num [normalize, THRESHOLD]) (by decide)

/-- Counterexample to claim C6 as stated: class id 44 has no remedy entry,
and for the non-empty ranked list `[(44, 9)]` the attached remedy is
`none` (absent), not a generic guidance string. -/
theorem c6_counterexample :
    REMEDIES.lookup (44 : Int) = none ∧
    remedy_text [((44 : Int), (9 : ℚ))] = none := by
  constructor <;> decide

/-- Claim C6 as amended: for every non-empty ranked list the attached
remedy is exactly the `REMEDIES` lookup of the top class id (the table
entry when present, absent otherwise); the generic "No remedy available."
string is attached only when the ranked list is empty. -/
theorem c6_amended_remedy (top : Int × ℚ) (rest : List (Int × ℚ)) :
    remedy_text (top :: rest) = REMEDIES.lookup top.1 ∧
    remedy_text [] = some "No remedy available." :=
  ⟨rfl, rfl⟩

/-- Lookup success in an association list depends only on the key list:
two lists with the same keys succeed on exactly the same queries. -/
theorem lookup_isSome_congr {β γ : Type} :
    ∀ (l₁ : List (Int × β)) (l₂ : List (Int × γ)),
      l₁.map Prod.fst = l₂.map Prod.fst →
      ∀ a, (l₁.lookup a).isSome = (l₂.lookup a).isSome := by
  intro l₁
  induction l₁ with
  | nil =>
    intro l₂ hk a
    cases l₂ with
    | nil => rfl
    | cons q t₂ => simp at hk
  | cons p t ih =>
    intro l₂ hk a
    cases l₂ with
    | nil => simp at hk
    | cons q t₂ =>
      simp only [List.map_cons, List.cons.injEq] at hk
      simp only [List.lookup, hk.1]
      cases hq : a == q.1
      · simpa using ih t₂ hk.2 a
      · rfl

/-- Claim C10: the built-in class catalog and the built-in remedy table
have exactly the key set 0..43, so lookup succeeds in one exactly when it
succeeds in the other and a remedy lookup for a resolvable built-in id
never falls through to a default. -/
theorem c10_catalog_remedy_keys :
    CLASS_MAPPING.map Prod.fst = (List.range 44).map (fun n => (n : Int)) ∧
    REMEDIES.map Prod.fst = (List.range 44).map (fun n => (n : Int)) ∧
    ∀ idx : Int, (CLASS_MAPPING.lookup idx).isSome = (REMEDIES.lookup idx).isSome := by
  refine ⟨by decide, by decide, ?_⟩
  exact lookup_isSome_congr CLASS_MAPPING REMEDIES (by decide)

end PlantSight
